import Mathlib

/-!
Verification of the BassBoost VTS parameter-range test
(`audio/aidl/vts/VtsHalBassBoostTargetTest.cpp`).

The file embeds the test's decision logic (`isStrengthInRange`,
`isTagInRange`, the candidate sweep `kStrengthValues`, the
set/get round-trip driver `SetAndGetBassBoostParameters`, the test
fixture lifecycle and the test-name generator) as executable Lean
definitions, and proves the specified properties about them.
The external effect service (factory, effect instance) is represented
by an oracle of response values, and the driver is embedded as a
function from that oracle to the list of calls and assertions the
test performs.
-/

/-- Modelled from the spec: the AIDL constants
`BassBoost::MIN_PER_MILLE_STRENGTH` and `BassBoost::MAX_PER_MILLE_STRENGTH`
are declared in the AIDL interface, which is not part of this repository
snapshot.  The spec fixes the per-mille strength range as 0..1000
("given MIN=0, MAX=1000"; glossary: "thousandths (0-1000 scale)"). -/
def MIN_PER_MILLE_STRENGTH : Int := 0

/-- Modelled from the spec: upper bound of the per-mille strength range. -/
def MAX_PER_MILLE_STRENGTH : Int := 1000

/-- `std::numeric_limits<int>::min()` for the 32-bit `int` used by the test. -/
def intMin : Int := -2147483648

/-- `std::numeric_limits<int>::max()` for the 32-bit `int` used by the test. -/
def intMax : Int := 2147483647

/-- Arithmetic shift right by one bit on a signed integer, as performed by
`>> 1` in the source; on two's-complement machines this is floor division
by two. -/
def sar1 (x : Int) : Int := Int.fdiv x 2

/-- The candidate strength sweep `kStrengthValues` from the source. -/
def kStrengthValues : List Int :=
  [intMin,
   MIN_PER_MILLE_STRENGTH - 1,
   MIN_PER_MILLE_STRENGTH,
   sar1 (MIN_PER_MILLE_STRENGTH + MAX_PER_MILLE_STRENGTH),
   MAX_PER_MILLE_STRENGTH,
   MAX_PER_MILLE_STRENGTH + 2,
   intMax]

/-- The `BassBoost::Capability` parcelable: the only field the test reads is
`strengthSupported`. -/
structure BassBoostCapability where
  strengthSupported : Bool
deriving DecidableEq, Repr

/-- Tags of the `BassBoost` AIDL union (`vendor`, `strengthPm`). -/
inductive BassBoostTag where
  | vendor
  | strengthPm
deriving DecidableEq, Repr

/-- Payload of the vendor-extension alternative; its contents are never
inspected by the test. -/
inductive VendorExtension where
  | mk
deriving DecidableEq, Repr

/-- The `BassBoost` AIDL union: either a vendor extension or a per-mille
strength value. -/
inductive BassBoost where
  | vendor (ext : VendorExtension)
  | strengthPm (strength : Int)
deriving DecidableEq, Repr

/-- The union accessor `bb.get<BassBoost::strengthPm>()`.  The C++ accessor
aborts when the union holds the other alternative; the test only builds
matched pairs via `addStrengthParam`, so the mismatched branch is
unreachable there and is given the value 0 here. -/
def BassBoost.getStrengthPm : BassBoost → Int
  | .strengthPm s => s
  | .vendor _ => 0

/-- `Parameter::Specific` restricted to the alternative the test uses. -/
inductive ParameterSpecific where
  | bassBoost (bb : BassBoost)
deriving DecidableEq, Repr

/-- The full `Parameter` envelope set and compared by the test. -/
inductive Parameter where
  | specific (s : ParameterSpecific)
deriving DecidableEq, Repr

/-- `BassBoost::Id`, restricted to the alternative the test builds. -/
inductive BassBoostId where
  | commonTag (tg : BassBoostTag)
deriving DecidableEq, Repr

/-- `Parameter::Id`, restricted to the alternative the test builds. -/
inductive ParameterId where
  | bassBoostTag (id : BassBoostId)
deriving DecidableEq, Repr

/-- `Descriptor::Common`: the identification fields used by the test-name
generator (`descriptor.common.id.uuid.toString()` is kept as a string). -/
structure DescriptorCommon where
  implementor : String
  name : String
  uuid : String
deriving DecidableEq, Repr

/-- The `Capability` union, restricted to the bassBoost alternative the
test extracts with `desc.capability.get<Capability::bassBoost>()`. -/
structure Capability where
  bassBoost : BassBoostCapability
deriving DecidableEq, Repr

/-- The effect `Descriptor` as consumed by the test. -/
structure Descriptor where
  common : DescriptorCommon
  capability : Capability
deriving DecidableEq, Repr

/-- `isStrengthInRange` from the source:
`cap.strengthSupported && strength >= MIN && strength <= MAX`. -/
def isStrengthInRange (cap : BassBoostCapability) (strength : Int) : Bool :=
  cap.strengthSupported && decide (strength ≥ MIN_PER_MILLE_STRENGTH) &&
    decide (strength ≤ MAX_PER_MILLE_STRENGTH)

/-- `isTagInRange` from the source: the `strengthPm` case extracts the
strength and checks it against the capability; every other tag falls to
the `default:` branch and yields `false`. -/
def isTagInRange (tg : BassBoostTag) (bb : BassBoost) (desc : Descriptor) : Bool :=
  let bbCap := desc.capability.bassBoost
  match tg with
  | .strengthPm => isStrengthInRange bbCap bb.getStrengthPm
  | _ => false

/-- The spec's `ExpectedOutcome`: Accept or Reject. -/
inductive ExpectedOutcome where
  | accept
  | reject
deriving DecidableEq, Repr

/-- The spec's `classify`: Accept exactly when the source predicate
`isStrengthInRange` holds (this is how the test derives the expected
binder status for a strength case). -/
def classify (cap : BassBoostCapability) (v : Int) : ExpectedOutcome :=
  if isStrengthInRange cap v then .accept else .reject

/-- C1: `classify cap v` is `accept` exactly when the capability supports
strength and `v` lies in `[MIN_PER_MILLE_STRENGTH, MAX_PER_MILLE_STRENGTH]`;
since `classify` has no other branch, no other acceptance path exists, and
with `strengthSupported = false` every value (including the bounds) is
rejected. -/
theorem C1_classify_accept_iff (cap : BassBoostCapability) (v : Int) :
    classify cap v = ExpectedOutcome.accept ↔
      (cap.strengthSupported = true ∧
        MIN_PER_MILLE_STRENGTH ≤ v ∧ v ≤ MAX_PER_MILLE_STRENGTH) := by
  unfold classify isStrengthInRange
  rcases cap with ⟨b⟩
  cases b <;> simp

/-- C5: the sweep is exactly the seven listed values — the signed-integer
minimum, `MIN - 1`, `MIN`, the midpoint of `[MIN, MAX]`, `MAX`, `MAX + 2`
and the signed-integer maximum — and `MAX + 1` is not among them. -/
theorem C5_sweep_values :
    kStrengthValues =
      [intMin, MIN_PER_MILLE_STRENGTH - 1, MIN_PER_MILLE_STRENGTH,
       sar1 (MIN_PER_MILLE_STRENGTH + MAX_PER_MILLE_STRENGTH),
       MAX_PER_MILLE_STRENGTH, MAX_PER_MILLE_STRENGTH + 2, intMax] ∧
    kStrengthValues.length = 7 ∧
    (MAX_PER_MILLE_STRENGTH + 1) ∉ kStrengthValues := by
  refine ⟨rfl, rfl, ?_⟩
  decide

/-- C6: with the modelled range `MIN = 0`, `MAX = 1000` and a capability
that supports strength, the classifier rejects -1, accepts 0, accepts 500
(which is the midpoint value the sweep produces for this range), accepts
1000, rejects 1002, and rejects both signed-integer extremes. -/
theorem C6_boundary_scenarios :
    classify ⟨true⟩ (-1) = ExpectedOutcome.reject ∧
    classify ⟨true⟩ 0 = ExpectedOutcome.accept ∧
    classify ⟨true⟩ 500 = ExpectedOutcome.accept ∧
    sar1 (MIN_PER_MILLE_STRENGTH + MAX_PER_MILLE_STRENGTH) = 500 ∧
    (500 : Int) ∈ kStrengthValues ∧
    classify ⟨true⟩ 1000 = ExpectedOutcome.accept ∧
    classify ⟨true⟩ 1002 = ExpectedOutcome.reject ∧
    classify ⟨true⟩ intMin = ExpectedOutcome.reject ∧
    classify ⟨true⟩ intMax = ExpectedOutcome.reject := by
  decide

/-- C10: for every tag other than `strengthPm`, and any `BassBoost` value
and descriptor, `isTagInRange` takes the `default:` branch and returns
`false`: only the strength tag can be classified acceptable. -/
theorem C10_other_tags_invalid (tg : BassBoostTag) (bb : BassBoost)
    (desc : Descriptor) (h : tg ≠ BassBoostTag.strengthPm) :
    isTagInRange tg bb desc = false := by
  cases tg with
  | strengthPm => exact absurd rfl h
  | vendor => rfl

/-- Witness for C10 at the vendor tag. -/
theorem C10_other_tags_invalid_witness :
    BassBoostTag.vendor ≠ BassBoostTag.strengthPm ∧
      isTagInRange BassBoostTag.vendor (BassBoost.strengthPm 500)
        ⟨⟨"a", "b", "c"⟩, ⟨⟨true⟩⟩⟩ = false :=
  ⟨by decide,
   C10_other_tags_invalid BassBoostTag.vendor (BassBoost.strengthPm 500)
     ⟨⟨"a", "b", "c"⟩, ⟨⟨true⟩⟩⟩ (by decide)⟩

/-- Binder exception statuses the test distinguishes: `EX_NONE`,
`EX_ILLEGAL_ARGUMENT`, and any other code the service might return. -/
inductive BinderStatus where
  | exNone
  | exIllegalArgument
  | other (code : Int)
deriving DecidableEq, Repr

/-- Sites of the assertions the test performs: the two fatal setup asserts
(`create`, `open`), the per-case descriptor assert, and the non-fatal set
and get status expectations. -/
inductive Check where
  | setupCreate
  | setupOpen
  | descCheck
  | setCheck
  | getCheck
deriving DecidableEq, Repr

/-- One observable step of a test case: a call to the effect service, or a
test-framework assertion.  `statusAssert` records the site, whether the
assertion is fatal (gtest `ASSERT_*`) or non-fatal (`EXPECT_*`), the
expected status and the observed status; `eqAssert` records the two whole
`Parameter` envelopes compared by `EXPECT_EQ`. -/
inductive Event where
  | createCall (st : BinderStatus)
  | openCall (st : BinderStatus)
  | getDescriptorCall (st : BinderStatus)
  | statusAssert (k : Check) (fatal : Bool) (expected observed : BinderStatus)
  | setCall (p : Parameter) (st : BinderStatus)
  | getCall (id : ParameterId) (st : BinderStatus) (got : Parameter)
  | eqAssert (fatal : Bool) (lhs rhs : Parameter)
  | closeCall
  | destroyCall
deriving DecidableEq, Repr

/-- Modelled from the spec: the external effect service consumed by the
test (factory and effect instance: `create`, `open`, `getDescriptor`,
`setParameter`, `getParameter`).  The service implementation is not part
of this repository; it is represented by the statuses and values it
returns for each call the test makes. -/
structure EffectOracle where
  createResult : BinderStatus
  openResult : BinderStatus
  descriptor : Descriptor
  getDescriptorResult : BinderStatus
  setParameterResult : Parameter → BinderStatus
  getParameterResult : ParameterId → BinderStatus × Parameter

/-- An assertion passes when the observed value equals the expected one;
call events are not assertions and trivially pass. -/
def Event.passed : Event → Bool
  | .statusAssert _ _ expected observed => decide (expected = observed)
  | .eqAssert _ lhs rhs => decide (lhs = rhs)
  | _ => true

/-- Whether an event is a fatal assertion (gtest `ASSERT_*`). -/
def Event.isFatal : Event → Bool
  | .statusAssert _ fatal _ _ => fatal
  | .eqAssert fatal _ _ => fatal
  | _ => false

/-- Whether an event is an assertion placed at setup or at the per-case
descriptor query (the fatal sites of the embedded test). -/
def Event.isSetupOrDescCheck : Event → Bool
  | .statusAssert .setupCreate _ _ _ => true
  | .statusAssert .setupOpen _ _ _ => true
  | .statusAssert .descCheck _ _ _ => true
  | _ => false

/-- Whether an event is an assertion placed at setup. -/
def Event.isSetupCheck : Event → Bool
  | .statusAssert .setupCreate _ _ _ => true
  | .statusAssert .setupOpen _ _ _ => true
  | _ => false

/-- Whether an event is a `getParameter` call. -/
def Event.isGetCall : Event → Bool
  | .getCall _ _ _ => true
  | _ => false

/-- Whether an event is a `setParameter` call. -/
def Event.isSetCall : Event → Bool
  | .setCall _ _ => true
  | _ => false

/-- Whether an event is a `setParameter` call that returned `EX_NONE`. -/
def Event.isSetSuccess : Event → Bool
  | .setCall _ st => decide (st = BinderStatus.exNone)
  | _ => false

/-- Whether an event is one of the instance lifecycle calls counted by the
acquisition/release property (`create`, `close`, `destroy`). -/
def Event.isCreateCall : Event → Bool
  | .createCall _ => true
  | _ => false

/-- `addStrengthParam` from the source: pushes the pair
`(BassBoost::strengthPm, bb)` with `bb` holding the strength value. -/
def addStrengthParam (strength : Int) : BassBoostTag × BassBoost :=
  (BassBoostTag.strengthPm, BassBoost.strengthPm strength)

/-- The expected binder status derived in the source:
`valid ? EX_NONE : EX_ILLEGAL_ARGUMENT`. -/
def expectedStatus (valid : Bool) : BinderStatus :=
  if valid then .exNone else .exIllegalArgument

/-- `SetAndGetBassBoostParameters` from the source, as a function from the
effect oracle and the pending `mTags` list to the list of events the test
performs.  For each pair: query the descriptor and fatally assert
`EX_NONE` (a failure stops the whole loop); compute `valid` with
`isTagInRange` and the expected status; set the full `Parameter` envelope
and non-fatally expect the derived status; and only when the expected
status is `EX_NONE`, get the parameter by the same tag identity, expect
the same status, and compare the returned envelope with the one set. -/
def processTags (o : EffectOracle) :
    List (BassBoostTag × BassBoost) → List Event
  | [] => []
  | (tg, bb) :: rest =>
    let dSt := o.getDescriptorResult
    let head := [Event.getDescriptorCall dSt,
                 Event.statusAssert .descCheck true .exNone dSt]
    if dSt = .exNone then
      let valid := isTagInRange tg bb o.descriptor
      let expected := expectedStatus valid
      let expectParam := Parameter.specific (ParameterSpecific.bassBoost bb)
      let sSt := o.setParameterResult expectParam
      let mid := [Event.setCall expectParam sSt,
                  Event.statusAssert .setCheck false expected sSt]
      let tailEvents :=
        if expected = .exNone then
          let pid := ParameterId.bassBoostTag (BassBoostId.commonTag tg)
          let g := o.getParameterResult pid
          [Event.getCall pid g.1 g.2,
           Event.statusAssert .getCheck false expected g.1,
           Event.eqAssert false expectParam g.2]
        else []
      head ++ mid ++ tailEvents ++ processTags o rest
    else head

/-- The `SetUp` method: create the effect (fatal assert), then open it
(fatal assert); a create failure stops setup before the open. -/
def setupEvents (o : EffectOracle) : List Event :=
  let c := o.createResult
  let createEvents := [Event.createCall c,
                       Event.statusAssert .setupCreate true .exNone c]
  if c = .exNone then
    createEvents ++ [Event.openCall o.openResult,
                     Event.statusAssert .setupOpen true .exNone o.openResult]
  else createEvents

/-- Whether setup completed without a fatal failure. -/
def setupPassed (o : EffectOracle) : Bool :=
  decide (o.createResult = BinderStatus.exNone) &&
    decide (o.openResult = BinderStatus.exNone)

/-- One whole test case under the gtest fixture protocol: `SetUp` runs
first; the test body runs only if setup had no fatal failure; `TearDown`
(close, then destroy) runs regardless of the outcome of setup and body. -/
def runTestCaseEvents (o : EffectOracle)
    (tags : List (BassBoostTag × BassBoost)) : List Event :=
  setupEvents o ++
    (if setupPassed o then processTags o tags else []) ++
    [Event.closeCall, Event.destroyCall]

/-- The `SetAndGetStrength` test body for one candidate value: a single
`addStrengthParam` followed by `SetAndGetBassBoostParameters`. -/
def runStrengthTest (o : EffectOracle) (v : Int) : List Event :=
  runTestCaseEvents o [addStrengthParam v]

/-- The full `Parameter` envelope the test builds around a strength value
(`Parameter::specific` wrapping `Specific::bassBoost` wrapping
`BassBoost::strengthPm`). -/
def strengthParam (v : Int) : Parameter :=
  Parameter.specific (ParameterSpecific.bassBoost (BassBoost.strengthPm v))

/-- The parameter identity the test builds for the get:
`Parameter::Id::bassBoostTag` wrapping `BassBoost::Id::commonTag` of the
strength tag. -/
def strengthId : ParameterId :=
  ParameterId.bassBoostTag (BassBoostId.commonTag BassBoostTag.strengthPm)

/-- On a strength pair, `isTagInRange` is exactly `isStrengthInRange` of the
descriptor's bassBoost capability. -/
theorem isTagInRange_strength (d : Descriptor) (v : Int) :
    isTagInRange BassBoostTag.strengthPm (BassBoost.strengthPm v) d =
      isStrengthInRange d.capability.bassBoost v := rfl

/-- A sample descriptor whose capability supports strength. -/
def sampleDescriptor : Descriptor :=
  ⟨⟨"Impl", "bassboost", "5432"⟩, ⟨⟨true⟩⟩⟩

/-- A conforming service: every call succeeds and the get returns the
strength value 500. -/
def okOracle : EffectOracle :=
  ⟨.exNone, .exNone, sampleDescriptor, .exNone,
   fun _ => .exNone, fun _ => (.exNone, strengthParam 500)⟩

/-- A service that rejects every set with `EX_ILLEGAL_ARGUMENT` while its
descriptor reports strength as supported. -/
def rejectingOracle : EffectOracle :=
  ⟨.exNone, .exNone, sampleDescriptor, .exNone,
   fun _ => .exIllegalArgument, fun _ => (.exNone, strengthParam 0)⟩

/-- A service whose `getDescriptor` fails inside the test body while setup
succeeds. -/
def badDescOracle : EffectOracle :=
  ⟨.exNone, .exNone, sampleDescriptor, .exIllegalArgument,
   fun _ => .exNone, fun _ => (.exNone, strengthParam 0)⟩

/-- C2: in an Accept-classified strength case whose set succeeded, the body
performs the get for the same parameter identity right after the set, and
the `EXPECT_EQ` assertion compares the whole `Parameter` envelope that was
set against the whole envelope returned: it passes exactly when the two
envelopes are structurally equal. -/
theorem C2_roundtrip_get_after_set (o : EffectOracle) (v : Int)
    (hd : o.getDescriptorResult = BinderStatus.exNone)
    (hv : isTagInRange BassBoostTag.strengthPm (BassBoost.strengthPm v)
            o.descriptor = true)
    (hs : o.setParameterResult (strengthParam v) = BinderStatus.exNone) :
    processTags o [addStrengthParam v] =
      [Event.getDescriptorCall .exNone,
       Event.statusAssert .descCheck true .exNone .exNone,
       Event.setCall (strengthParam v) .exNone,
       Event.statusAssert .setCheck false .exNone .exNone,
       Event.getCall strengthId (o.getParameterResult strengthId).1
         (o.getParameterResult strengthId).2,
       Event.statusAssert .getCheck false .exNone
         (o.getParameterResult strengthId).1,
       Event.eqAssert false (strengthParam v)
         (o.getParameterResult strengthId).2] ∧
    ((Event.eqAssert false (strengthParam v)
        (o.getParameterResult strengthId).2).passed = true ↔
      (o.getParameterResult strengthId).2 = strengthParam v) := by
  constructor
  · simp only [strengthParam] at hs
    simp [processTags, addStrengthParam, hd, hv, hs, expectedStatus,
      strengthParam, strengthId]
  · simp [Event.passed, eq_comm]

/-- Witness for C2 at a conforming service and the value 500. -/
theorem C2_roundtrip_get_after_set_witness :
    (okOracle.getDescriptorResult = BinderStatus.exNone ∧
     isTagInRange BassBoostTag.strengthPm (BassBoost.strengthPm 500)
       okOracle.descriptor = true ∧
     okOracle.setParameterResult (strengthParam 500) = BinderStatus.exNone) ∧
    (processTags okOracle [addStrengthParam 500] =
      [Event.getDescriptorCall .exNone,
       Event.statusAssert .descCheck true .exNone .exNone,
       Event.setCall (strengthParam 500) .exNone,
       Event.statusAssert .setCheck false .exNone .exNone,
       Event.getCall strengthId (okOracle.getParameterResult strengthId).1
         (okOracle.getParameterResult strengthId).2,
       Event.statusAssert .getCheck false .exNone
         (okOracle.getParameterResult strengthId).1,
       Event.eqAssert false (strengthParam 500)
         (okOracle.getParameterResult strengthId).2] ∧
     ((Event.eqAssert false (strengthParam 500)
         (okOracle.getParameterResult strengthId).2).passed = true ↔
       (okOracle.getParameterResult strengthId).2 = strengthParam 500)) :=
  ⟨⟨rfl, by decide, rfl⟩,
   C2_roundtrip_get_after_set okOracle 500 rfl (by decide) rfl⟩

/-- C3: in every strength case, the set expectation recorded by the body
carries the status derived from the prediction — `EX_NONE` for a predicted
Accept and `EX_ILLEGAL_ARGUMENT` for a predicted Reject — together with the
status the service actually returned; the assertion passes exactly when the
observed status equals the derived one, so any other status is a reported
failure. -/
theorem C3_set_status_expectation (o : EffectOracle) (v : Int)
    (hd : o.getDescriptorResult = BinderStatus.exNone) :
    (Event.statusAssert .setCheck false
        (expectedStatus (isTagInRange BassBoostTag.strengthPm
          (BassBoost.strengthPm v) o.descriptor))
        (o.setParameterResult (strengthParam v))
      ∈ processTags o [addStrengthParam v]) ∧
    (expectedStatus (isTagInRange BassBoostTag.strengthPm
        (BassBoost.strengthPm v) o.descriptor) = BinderStatus.exNone ↔
      classify o.descriptor.capability.bassBoost v = ExpectedOutcome.accept) ∧
    (expectedStatus (isTagInRange BassBoostTag.strengthPm
        (BassBoost.strengthPm v) o.descriptor) =
          BinderStatus.exIllegalArgument ↔
      classify o.descriptor.capability.bassBoost v = ExpectedOutcome.reject) ∧
    (∀ observed : BinderStatus,
      (Event.statusAssert .setCheck false
          (expectedStatus (isTagInRange BassBoostTag.strengthPm
            (BassBoost.strengthPm v) o.descriptor)) observed).passed = true ↔
        expectedStatus (isTagInRange BassBoostTag.strengthPm
          (BassBoost.strengthPm v) o.descriptor) = observed) := by
  refine ⟨?_, ?_, ?_, ?_⟩
  · cases hvalid : isTagInRange BassBoostTag.strengthPm
      (BassBoost.strengthPm v) o.descriptor <;>
      simp [processTags, addStrengthParam, hd, hvalid, expectedStatus,
        strengthParam]
  · rw [isTagInRange_strength]
    cases hvalid : isStrengthInRange o.descriptor.capability.bassBoost v <;>
      simp [expectedStatus, classify, hvalid]
  · rw [isTagInRange_strength]
    cases hvalid : isStrengthInRange o.descriptor.capability.bassBoost v <;>
      simp [expectedStatus, classify, hvalid]
  · intro observed
    simp [Event.passed]

/-- Witness for C3 at a service that rejects every set, with the in-range
value 500 (predicted Accept, so the expected status is `EX_NONE`). -/
theorem C3_set_status_expectation_witness :
    rejectingOracle.getDescriptorResult = BinderStatus.exNone ∧
    ((Event.statusAssert .setCheck false
        (expectedStatus (isTagInRange BassBoostTag.strengthPm
          (BassBoost.strengthPm 500) rejectingOracle.descriptor))
        (rejectingOracle.setParameterResult (strengthParam 500))
      ∈ processTags rejectingOracle [addStrengthParam 500]) ∧
    (expectedStatus (isTagInRange BassBoostTag.strengthPm
        (BassBoost.strengthPm 500) rejectingOracle.descriptor) =
          BinderStatus.exNone ↔
      classify rejectingOracle.descriptor.capability.bassBoost 500 =
        ExpectedOutcome.accept) ∧
    (expectedStatus (isTagInRange BassBoostTag.strengthPm
        (BassBoost.strengthPm 500) rejectingOracle.descriptor) =
          BinderStatus.exIllegalArgument ↔
      classify rejectingOracle.descriptor.capability.bassBoost 500 =
        ExpectedOutcome.reject) ∧
    (∀ observed : BinderStatus,
      (Event.statusAssert .setCheck false
          (expectedStatus (isTagInRange BassBoostTag.strengthPm
            (BassBoost.strengthPm 500) rejectingOracle.descriptor))
          observed).passed = true ↔
        expectedStatus (isTagInRange BassBoostTag.strengthPm
          (BassBoost.strengthPm 500) rejectingOracle.descriptor) =
            observed)) :=
  ⟨rfl, C3_set_status_expectation rejectingOracle 500 rfl⟩

/-- C4 counterexample: against a service that rejects every set while its
descriptor reports strength as supported, the in-range case 500 has a set
call that did not succeed (no set call in the trace returned `EX_NONE`),
yet the body still performs a get — refuting the claim that no get is
performed when the set did not succeed. -/
theorem C4_counterexample_get_after_failed_set :
    ((processTags rejectingOracle [addStrengthParam 500]).any
        Event.isSetCall = true) ∧
    ((processTags rejectingOracle [addStrengthParam 500]).any
        Event.isSetSuccess = false) ∧
    ((processTags rejectingOracle [addStrengthParam 500]).any
        Event.isGetCall = true) := by
  decide

/-- C4 amended: the body performs the get exactly when the case is
predicted Accept (the derived expected status is `EX_NONE`), regardless of
the status the set call actually returned. -/
theorem C4_amended_get_iff_predicted_accept (o : EffectOracle) (v : Int)
    (hd : o.getDescriptorResult = BinderStatus.exNone) :
    (processTags o [addStrengthParam v]).any Event.isGetCall = true ↔
      isTagInRange BassBoostTag.strengthPm (BassBoost.strengthPm v)
        o.descriptor = true := by
  cases hvalid : isTagInRange BassBoostTag.strengthPm
      (BassBoost.strengthPm v) o.descriptor <;>
    simp [processTags, addStrengthParam, hd, hvalid, expectedStatus,
      Event.isGetCall]

/-- Witness for the amended C4 at a conforming service and the value 500. -/
theorem C4_amended_get_iff_predicted_accept_witness :
    okOracle.getDescriptorResult = BinderStatus.exNone ∧
    ((processTags okOracle [addStrengthParam 500]).any Event.isGetCall =
        true ↔
      isTagInRange BassBoostTag.strengthPm (BassBoost.strengthPm 500)
        okOracle.descriptor = true) :=
  ⟨rfl, C4_amended_get_iff_predicted_accept okOracle 500 rfl⟩

/-- An event is allowed to be fatal only at the setup asserts or at the
per-case descriptor assert. -/
def fatalOnlyAtChecks (e : Event) : Bool :=
  !e.isFatal || e.isSetupOrDescCheck

/-- Every event the body emits is either non-fatal or one of the
setup/descriptor asserts. -/
theorem processTags_fatalOnlyAtChecks (o : EffectOracle) :
    ∀ tags : List (BassBoostTag × BassBoost),
      (processTags o tags).all fatalOnlyAtChecks = true := by
  intro tags
  induction tags with
  | nil => rfl
  | cons p rest ih =>
    obtain ⟨tg, bb⟩ := p
    simp only [processTags]
    split
    · split <;>
        simp_all [fatalOnlyAtChecks, Event.isFatal, Event.isSetupOrDescCheck,
          List.all_append]
    · rfl

/-- Every event setup emits is a setup assert or a non-assertion call. -/
theorem setupEvents_fatalOnlyAtChecks (o : EffectOracle) :
    (setupEvents o).all fatalOnlyAtChecks = true := by
  unfold setupEvents
  by_cases h : o.createResult = BinderStatus.exNone <;>
    simp [h, fatalOnlyAtChecks, Event.isFatal, Event.isSetupOrDescCheck]

/-- C7 counterexample: with a service whose setup succeeds but whose
`getDescriptor` fails, a run with two queued strength cases contains a
fatal failed assertion that is not at setup (the in-body descriptor
assert), and no set call is ever made — the case is aborted rather than
continuing — refuting the claim that the only fatal aborts are at setup. -/
theorem C7_counterexample_fatal_in_body :
    ((runTestCaseEvents badDescOracle
        [addStrengthParam 0, addStrengthParam 500]).any
        (fun e => e.isFatal && !e.passed && !e.isSetupCheck) = true) ∧
    ((runTestCaseEvents badDescOracle
        [addStrengthParam 0, addStrengthParam 500]).any
        Event.isSetCall = false) := by
  decide

/-- C7 amended: a fatal assertion can occur only at the two setup asserts
or at the per-case descriptor assert; every set-status, get-status and
round-trip-equality assertion is non-fatal (and a fixture never aborts the
process). -/
theorem C7_amended_fatal_sites (o : EffectOracle)
    (tags : List (BassBoostTag × BassBoost)) (e : Event)
    (he : e ∈ runTestCaseEvents o tags) (hf : e.isFatal = true) :
    e.isSetupOrDescCheck = true := by
  have hall : (runTestCaseEvents o tags).all fatalOnlyAtChecks = true := by
    unfold runTestCaseEvents
    simp only [List.all_append, Bool.and_eq_true]
    refine ⟨⟨setupEvents_fatalOnlyAtChecks o, ?_⟩, by rfl⟩
    split
    · exact processTags_fatalOnlyAtChecks o tags
    · rfl
  have h := (List.all_eq_true.mp hall) e he
  simp [fatalOnlyAtChecks, hf] at h
  exact h

/-- Witness for the amended C7 at the setup create assert of a conforming
service. -/
theorem C7_amended_fatal_sites_witness :
    (Event.statusAssert .setupCreate true .exNone .exNone
        ∈ runTestCaseEvents okOracle [addStrengthParam 500] ∧
      (Event.statusAssert Check.setupCreate true BinderStatus.exNone
        BinderStatus.exNone).isFatal = true) ∧
    (Event.statusAssert Check.setupCreate true BinderStatus.exNone
      BinderStatus.exNone).isSetupOrDescCheck = true :=
  ⟨⟨by decide, rfl⟩,
   C7_amended_fatal_sites okOracle [addStrengthParam 500]
     (Event.statusAssert .setupCreate true .exNone .exNone) (by decide) rfl⟩

/-- Whether an event is the `close` call of `TearDown`. -/
def Event.isCloseCall : Event → Bool
  | .closeCall => true
  | _ => false

/-- Whether an event is the `destroy` call of `TearDown`. -/
def Event.isDestroyCall : Event → Bool
  | .destroyCall => true
  | _ => false

/-- Whether an event is none of the instance lifecycle calls. -/
def notLifecycle (e : Event) : Bool :=
  !e.isCreateCall && !e.isCloseCall && !e.isDestroyCall

/-- The test body emits no create, close or destroy call. -/
theorem processTags_notLifecycle (o : EffectOracle) :
    ∀ tags : List (BassBoostTag × BassBoost),
      (processTags o tags).all notLifecycle = true := by
  intro tags
  induction tags with
  | nil => rfl
  | cons p rest ih =>
    obtain ⟨tg, bb⟩ := p
    simp only [processTags]
    split
    · split <;>
        simp_all [notLifecycle, Event.isCreateCall, Event.isCloseCall,
          Event.isDestroyCall, List.all_append]
    · rfl

/-- Setup performs exactly one create call and no close or destroy. -/
theorem setupEvents_lifecycleCounts (o : EffectOracle) :
    (setupEvents o).countP Event.isCreateCall = 1 ∧
    (setupEvents o).countP Event.isCloseCall = 0 ∧
    (setupEvents o).countP Event.isDestroyCall = 0 := by
  unfold setupEvents
  by_cases h : o.createResult = BinderStatus.exNone <;>
    simp [h, List.countP_cons, Event.isCreateCall, Event.isCloseCall,
      Event.isDestroyCall]

/-- C8: every run of a test case — whatever the service returns and however
the assertions turn out — performs exactly one create (the acquisition in
`SetUp`), exactly one close and exactly one destroy, and it ends with the
close followed by the destroy as its final two events. -/
theorem C8_acquire_release (o : EffectOracle)
    (tags : List (BassBoostTag × BassBoost)) :
    (runTestCaseEvents o tags).countP Event.isCreateCall = 1 ∧
    (runTestCaseEvents o tags).countP Event.isCloseCall = 1 ∧
    (runTestCaseEvents o tags).countP Event.isDestroyCall = 1 ∧
    ∃ pre, runTestCaseEvents o tags =
      pre ++ [Event.closeCall, Event.destroyCall] := by
  obtain ⟨hs1, hs2, hs3⟩ := setupEvents_lifecycleCounts o
  have hb : ∀ e ∈ processTags o tags, notLifecycle e = true :=
    List.all_eq_true.mp (processTags_notLifecycle o tags)
  have hb1 : (processTags o tags).countP Event.isCreateCall = 0 :=
    List.countP_eq_zero.mpr (fun e he => by
      have h := hb e he
      simp [notLifecycle] at h
      simp [h.1])
  have hb2 : (processTags o tags).countP Event.isCloseCall = 0 :=
    List.countP_eq_zero.mpr (fun e he => by
      have h := hb e he
      simp [notLifecycle] at h
      simp [h.1.2])
  have hb3 : (processTags o tags).countP Event.isDestroyCall = 0 :=
    List.countP_eq_zero.mpr (fun e he => by
      have h := hb e he
      simp [notLifecycle] at h
      simp [h.2])
  refine ⟨?_, ?_, ?_,
    ⟨setupEvents o ++ (if setupPassed o then processTags o tags else []),
     rfl⟩⟩ <;>
    · unfold runTestCaseEvents
      by_cases hsp : setupPassed o = true <;>
        simp [hsp, List.countP_append, hs1, hs2, hs3, hb1, hb2, hb3,
          List.countP_cons, Event.isCreateCall, Event.isCloseCall,
          Event.isDestroyCall]

/-- The combined identification string built by the test-name generator
before sanitization: literal markers around the implementor name, the
effect name, the UUID and the decimal rendering of the strength value. -/
def combinedName (d : Descriptor) (strength : Int) : String :=
  "Implementor_" ++ d.common.implementor ++ "_name_" ++ d.common.name ++
    "_UUID_" ++ d.common.uuid ++ "_strength_" ++ toString strength

/-- The per-character replacement performed by `std::replace_if` with the
`!std::isalnum` predicate: keep alphanumeric characters, replace every
other character by an underscore. -/
def sanitizeChar (c : Char) : Char :=
  if c.isAlphanum then c else Char.ofNat 95

/-- The test-name generator of `INSTANTIATE_TEST_SUITE_P`: the combined
identification string with the replacement applied to each character. -/
def testCaseName (d : Descriptor) (strength : Int) : String :=
  String.mk ((combinedName d strength).data.map sanitizeChar)

/-- C9: the generated test identifier has the same length as the combined
string of implementor name, effect name, UUID and strength value, and at
every position it holds the combined string's character when that
character is alphanumeric and an underscore (character code 95)
otherwise. -/
theorem C9_test_name_sanitized (d : Descriptor) (s : Int) (i : Nat) :
    (testCaseName d s).length = (combinedName d s).length ∧
    (testCaseName d s).data.get? i =
      ((combinedName d s).data.get? i).map
        (fun c => if c.isAlphanum then c else Char.ofNat 95) := by
  constructor
  · show ((combinedName d s).data.map sanitizeChar).length =
      (combinedName d s).data.length
    simp
  · simp [testCaseName]
    rfl
